import Mathlib

/-!
Verification model of the callback-hell quotes dashboard (`src/main.js`).

The page runs a single workflow: a click on the fetch button resets the
dashboard and starts a chain of four sequential `XMLHttpRequest` calls
(quotes, author info, related quotes, random quote) followed by one final
completion step.  Each nested `onload` handler of the source is embedded
below as one `step` function; the `setTimeout` delays only sequence
execution and carry no other observable behaviour, so they are not modelled
as time.  DOM writes, console output, issued requests and button toggles are
recorded both in an explicit dashboard `State` and in an event trace.
-/

namespace CallbackHell

/-- Model of one quote record delivered by the quotes endpoint. -/
structure QuoteItem where
  quote : String
  source : String
  deriving DecidableEq, Repr

/-- Model of a parsed JSON response body: either a list of quote records or an
error object with an `error` field (`StepResult` of the data model). -/
inductive Payload where
  | err (msg : String)
  | list (items : List QuoteItem)
  deriving DecidableEq, Repr

/-- Model of the outcome of one `XMLHttpRequest`: either a network-level
transport failure (the `onerror` handler fires) or a loaded response with an
HTTP status and a parsed body (the `onload` handler fires). -/
inductive Response where
  | transport
  | loaded (status : Nat) (payload : Payload)
  deriving DecidableEq, Repr

/-- Model of the network environment of one run: the responses delivered to the
four requests, in the order the requests are issued. -/
structure Responses where
  r1 : Response
  r2 : Response
  r3 : Response
  r4 : Response
  deriving DecidableEq, Repr

/-- Model of the four display regions (the `quotes`, `authorInfo`,
`relatedQuotes` and `randomQuote` sections of the page). -/
inductive Region where
  | quotes
  | authorInfo
  | relatedQuotes
  | randomQuote
  deriving DecidableEq, Repr

/-- Observable events of a run, in execution order. -/
inductive Event where
  | request (method url : String)
  | progress (pct : Nat) (text : String)
  | conLog (msg : String)
  | conError (msg : String)
  | render (reg : Region) (html : String)
  | button (enabled : Bool)
  deriving DecidableEq, Repr

/-- Model of the page state touched by `main.js`: the four sections'
`innerHTML`, the progress bar and text, the fetch button, plus the trace of
observable events so far. -/
structure State where
  quotes : String
  authorInfo : String
  relatedQuotes : String
  randomQuote : String
  progressPercent : Nat
  progressText : String
  buttonDisabled : Bool
  buttonText : String
  trace : List Event
  deriving DecidableEq, Repr

/-- Append one observable event to the trace. -/
def emit (st : State) (e : Event) : State :=
  { st with trace := st.trace ++ [e] }

/-- Read a region's current `innerHTML`. -/
def State.region (st : State) : Region → String
  | .quotes => st.quotes
  | .authorInfo => st.authorInfo
  | .relatedQuotes => st.relatedQuotes
  | .randomQuote => st.randomQuote

/-- Write a region's `innerHTML` (one DOM write, recorded in the trace). -/
def setRegion (st : State) (r : Region) (html : String) : State :=
  let st := emit st (.render r html)
  match r with
  | .quotes => { st with quotes := html }
  | .authorInfo => { st with authorInfo := html }
  | .relatedQuotes => { st with relatedQuotes := html }
  | .randomQuote => { st with randomQuote := html }

/-- Model of `console.log` (the source passes the topic as a second argument,
which the console joins with a space). -/
def conLog (st : State) (msg : String) : State :=
  emit st (.conLog msg)

/-- Model of `console.error`. -/
def conError (st : State) (msg : String) : State :=
  emit st (.conError msg)

/-- Whether `pat` occurs as a contiguous substring of `s`, on character lists:
model of the JavaScript `String.prototype.includes` test used in
`handleError`. -/
def hasSub (pat : List Char) : List Char → Bool
  | [] => pat.isEmpty
  | c :: rest => pat.isPrefixOf (c :: rest) || hasSub pat rest

/-- Whether the string `pat` occurs as a contiguous substring of `s`. -/
def containsSub (s pat : String) : Bool :=
  hasSub pat.data s.data

/-- The function showSpinner of `main.js`: replace a section's content with the
spinner markup. -/
def showSpinner (st : State) (r : Region) : State :=
  setRegion st r "<div class=\"spinner\"></div>"

/-- The function updateProgress of `main.js`: set the progress bar width (kept
as the percentage number) and the progress text. -/
def updateProgress (st : State) (pct : Nat) (text : String) : State :=
  let st := emit st (.progress pct text)
  { st with progressPercent := pct, progressText := text }

/-- The function enableButton of `main.js`. -/
def enableButton (st : State) : State :=
  let st := emit st (.button true)
  { st with buttonDisabled := false, buttonText := "Fetch All Data" }

/-- The function resetDashboard of `main.js`: spinners in all four sections,
progress back to 0, button disabled. -/
def resetDashboard (st : State) : State :=
  let st := showSpinner st .quotes
  let st := showSpinner st .authorInfo
  let st := showSpinner st .relatedQuotes
  let st := showSpinner st .randomQuote
  let st := updateProgress st 0 "Starting to fetch data..."
  let st := emit st (.button false)
  { st with buttonDisabled := true, buttonText := "Loading..." }

/-- The inline error markup used by the display functions and by
`handleError`. -/
def errorDiv (msg : String) : String :=
  "<div class=\"error\">" ++ msg ++ "</div>"

/-- The markup one quote record contributes in `displayQuotes` and
`displayRelatedQuotes`. -/
def quoteItemHtml (q : QuoteItem) : String :=
  "<div class=\"quote-item\">" ++
    "<div class=\"quote-text\">\"" ++ q.quote ++ "\"</div>" ++
    "<div class=\"quote-source\">— " ++ q.source ++ "</div>" ++
    "</div>"

/-- The innerHTML built by the function displayQuotes of `main.js`. -/
def quotesHtml (quoteData : Payload) (count : String) : String :=
  let html := "<h3>Requested " ++ count ++ " quotes:</h3>"
  match quoteData with
  | .err msg => html ++ errorDiv msg
  | .list items => html ++ String.join (items.map quoteItemHtml)

/-- The function displayQuotes of `main.js`. -/
def displayQuotes (st : State) (quoteData : Payload) (count : String) : State :=
  setRegion st .quotes (quotesHtml quoteData count)

/-- The innerHTML built by the function displayAuthorInfo of `main.js`. -/
def authorInfoHtml (authorData : Payload) : String :=
  "<div class=\"author-card\">" ++
    (match authorData with
     | .err msg => errorDiv msg
     | .list items =>
       if items.length > 0 then
         "<div class=\"author-name\">" ++ (items.getD 0 ⟨"", ""⟩).source ++ "</div>" ++
           "<div class=\"author-bio\">Author information would be fetched from a separate author API endpoint. This demonstrates why we need multiple sequential API calls.</div>"
       else
         "<div class=\"author-name\">Various Authors</div>" ++
           "<div class=\"author-bio\">Multiple authors contribute to this collection.</div>") ++
    "</div>"

/-- The function displayAuthorInfo of `main.js`. -/
def displayAuthorInfo (st : State) (authorData : Payload) : State :=
  setRegion st .authorInfo (authorInfoHtml authorData)

/-- The innerHTML built by the function displayRelatedQuotes of `main.js`: the
first two quotes (`slice(0, 2)`) followed by a fixed note. -/
def relatedHtml (relatedQuotes : Payload) : String :=
  let html := "<h3>Related content:</h3>"
  match relatedQuotes with
  | .err msg => html ++ errorDiv msg
  | .list items =>
    html ++ String.join ((items.take 2).map quoteItemHtml) ++
      "<p style=\"color: #666; font-style: italic;\">Related quotes would come from a different API endpoint based on the original quotes.</p>"

/-- The function displayRelatedQuotes of `main.js`. -/
def displayRelatedQuotes (st : State) (relatedQuotes : Payload) : State :=
  setRegion st .relatedQuotes (relatedHtml relatedQuotes)

/-- The innerHTML built by the function displayRandomQuote of `main.js`: the
last quote of the list, when there is one, followed by a fixed note. -/
def randomQuoteHtml (randomQuote : Payload) : String :=
  let html := "<h3>Quote of the day:</h3>"
  match randomQuote with
  | .err msg => html ++ errorDiv msg
  | .list items =>
    (if items.length > 0 then
      html ++ quoteItemHtml (items.getD (items.length - 1) ⟨"", ""⟩)
    else html) ++
      "<p style=\"color: #666; font-style: italic;\">This would come from a random quote API endpoint.</p>"

/-- The function displayRandomQuote of `main.js`. -/
def displayRandomQuote (st : State) (randomQuote : Payload) : State :=
  setRegion st .randomQuote (randomQuoteHtml randomQuote)

/-- One iteration of the forEach loop in the function handleError of
`main.js`: overwrite the region with the inline error message exactly when its
current content still contains the substring spinner. -/
def errorOverwrite (msg : String) (st : State) (r : Region) : State :=
  if containsSub (st.region r) "spinner" then setRegion st r (errorDiv msg) else st

/-- The function handleError of `main.js`: log the failure, reset the progress
bar with the fixed error text, re-enable the button, and overwrite every
section whose content still contains the substring spinner. -/
def handleError (msg : String) (st : State) : State :=
  let st := conError st msg
  let st := updateProgress st 0 "Error occurred during data fetching"
  let st := enableButton st
  let st := errorOverwrite msg st .quotes
  let st := errorOverwrite msg st .authorInfo
  let st := errorOverwrite msg st .relatedQuotes
  errorOverwrite msg st .randomQuote

/-- The fixed quotes endpoint of `fetchQuotes` in `main.js`. -/
def endpoint : String := "https://wp.zybooks.com/quotes.php"

/-- The request URL built at the top of `fetchQuotes`: the endpoint with the
query string from the run's topic and count. -/
def mkUrl (topic count : String) : String :=
  endpoint ++ "?" ++ ("topic=" ++ topic ++ "&count=" ++ count)

/-- Step 5 of `fetchQuotes`: the body of the final `setTimeout` on the success
path. -/
def step5 (st : State) : State :=
  let st := conLog st "Step 5: All data processing complete!"
  let st := updateProgress st 100 "Complete! All data loaded successfully."
  enableButton st

/-- Step 4 of `fetchQuotes` (`randomQuoteXhr`): the fourth request, reusing the
same URL, and its `onload` / `onerror` handlers. -/
def step4 (topic url : String) (env : Responses) (st : State) : State :=
  let st := emit st (.request "GET" url)
  match env.r4 with
  | .transport => handleError "Network error while fetching random quote." st
  | .loaded status randomQuote =>
    if status = 200 then
      let st := conLog st ("Step 4: Random quote fetched for topic: " ++ topic)
      let st := updateProgress st 80 "Step 4/5: Random quote loaded!"
      let st := displayRandomQuote st randomQuote
      step5 st
    else
      handleError ("Error fetching random quote: " ++ toString status) st

/-- Step 3 of `fetchQuotes` (`relatedQuotesXhr`): the third request and its
handlers. -/
def step3 (topic url : String) (env : Responses) (st : State) : State :=
  let st := emit st (.request "GET" url)
  match env.r3 with
  | .transport => handleError "Network error while fetching related quotes." st
  | .loaded status relatedQuotes =>
    if status = 200 then
      let st := conLog st ("Step 3: Related quotes fetched for topic: " ++ topic)
      let st := updateProgress st 60 "Step 3/5: Related quotes loaded!"
      let st := displayRelatedQuotes st relatedQuotes
      step4 topic url env st
    else
      handleError ("Error fetching related quotes: " ++ toString status) st

/-- Step 2 of `fetchQuotes` (`authorXhr`): the second request and its
handlers. -/
def step2 (topic url : String) (env : Responses) (st : State) : State :=
  let st := emit st (.request "GET" url)
  match env.r2 with
  | .transport => handleError "Network error while fetching author details." st
  | .loaded status authorData =>
    if status = 200 then
      let st := conLog st ("Step 2: Author details fetched for topic: " ++ topic)
      let st := updateProgress st 40 "Step 2/5: Author info loaded!"
      let st := displayAuthorInfo st authorData
      step3 topic url env st
    else
      handleError ("Error fetching author details: " ++ toString status) st

/-- The function fetchQuotes of `main.js`: build the URL, issue the first
request (`xhr`) and run the nested callback chain, here flattened into the
step functions above. -/
def fetchQuotes (topic count : String) (env : Responses) (st : State) : State :=
  let url := mkUrl topic count
  let st := emit st (.request "GET" url)
  match env.r1 with
  | .transport => handleError "Network error while fetching quotes." st
  | .loaded status quoteData =>
    if status = 200 then
      let st := conLog st ("Step 1: Quotes fetched for topic: " ++ topic)
      let st := updateProgress st 20 "Step 1/5: Quotes loaded!"
      let st := displayQuotes st quoteData count
      step2 topic (mkUrl topic count) env st
    else
      handleError ("Error fetching quotes: " ++ toString status) st

/-- The page state at load time.  Its concrete contents never matter to the
workflow: the click handler's `resetDashboard` overwrites every section, the
progress bar and the button before any step runs. -/
def pageLoad : State :=
  { quotes := "", authorInfo := "", relatedQuotes := "", randomQuote := "",
    progressPercent := 0, progressText := "", buttonDisabled := false,
    buttonText := "Fetch All Data", trace := [] }

/-- The click handler of `main.js`: read topic and count from the drop-downs
(taken here as the arguments), reset the dashboard and start fetching. -/
def clickRun (topic count : String) (env : Responses) : State :=
  fetchQuotes topic count env (resetDashboard pageLoad)

/-- Whether a response reaches the success branch of its `onload` handler:
loaded with HTTP status exactly 200. -/
def Response.ok : Response → Bool
  | .transport => false
  | .loaded s _ => s == 200

/-- The number of leading successful responses of an environment (0 to 4). -/
def succCount (env : Responses) : Nat :=
  if env.r1.ok then
    (if env.r2.ok then
      (if env.r3.ok then
        (if env.r4.ok then 4 else 3)
      else 2)
    else 1)
  else 0

/-- The run over `env` fails for the first time at the K-th request
(1-based). -/
def failsAt (env : Responses) (K : Nat) : Prop :=
  1 ≤ K ∧ K ≤ 4 ∧ succCount env = K - 1

/-- The fixed progress checkpoints of the five steps. -/
def stepChecks : List Nat := [20, 40, 60, 80, 100]

/-- The progress updates of a trace: percentage and text, in order. -/
def progressTrace (tr : List Event) : List (Nat × String) :=
  tr.filterMap fun e =>
    match e with
    | .progress p t => some (p, t)
    | _ => none

/-- The progress percentages of a trace, in order. -/
def progressPcts (tr : List Event) : List Nat :=
  tr.filterMap fun e =>
    match e with
    | .progress p _ => some p
    | _ => none

/-- The issued requests of a trace: method and URL, in order. -/
def requests (tr : List Event) : List (String × String) :=
  tr.filterMap fun e =>
    match e with
    | .request m u => some (m, u)
    | _ => none

/-- The button state changes of a trace (`false` = disabled), in order. -/
def buttonEvts (tr : List Event) : List Bool :=
  tr.filterMap fun e =>
    match e with
    | .button b => some b
    | _ => none

/-- The `console.log` messages of a trace, in order. -/
def logMsgs (tr : List Event) : List String :=
  tr.filterMap fun e =>
    match e with
    | .conLog m => some m
    | _ => none

/-- The name each failure message uses for step K's resource. -/
def stepNoun : Nat → String
  | 1 => "quotes"
  | 2 => "author details"
  | 3 => "related quotes"
  | _ => "random quote"

/-- The K-th response of an environment (1-based). -/
def Responses.nth (env : Responses) : Nat → Response
  | 2 => env.r2
  | 3 => env.r3
  | 4 => env.r4
  | _ => env.r1

/-- The message `handleError` receives when step K fails: the fixed network
error text on a transport failure, the status text otherwise. -/
def failMsg (K : Nat) (env : Responses) : String :=
  match env.nth K with
  | .transport => "Network error while fetching " ++ stepNoun K ++ "."
  | .loaded s _ => "Error fetching " ++ stepNoun K ++ ": " ++ toString s

/-- The progress percentages emitted from step 4 on. -/
def pcts4 (env : Responses) : List Nat :=
  if env.r4.ok then [80, 100] else [0]

/-- The progress percentages emitted from step 3 on. -/
def pcts3 (env : Responses) : List Nat :=
  if env.r3.ok then 60 :: pcts4 env else [0]

/-- The progress percentages emitted from step 2 on. -/
def pcts2 (env : Responses) : List Nat :=
  if env.r2.ok then 40 :: pcts3 env else [0]

/-- The progress percentages emitted from step 1 on. -/
def pcts1 (env : Responses) : List Nat :=
  if env.r1.ok then 20 :: pcts2 env else [0]

/-- The number of requests issued from step 4 on. -/
def reqs4 (_env : Responses) : Nat := 1

/-- The number of requests issued from step 3 on. -/
def reqs3 (env : Responses) : Nat :=
  1 + (if env.r3.ok then reqs4 env else 0)

/-- The number of requests issued from step 2 on. -/
def reqs2 (env : Responses) : Nat :=
  1 + (if env.r2.ok then reqs3 env else 0)

/-- The number of requests issued from step 1 on. -/
def reqs1 (env : Responses) : Nat :=
  1 + (if env.r1.ok then reqs2 env else 0)

/-- The console.log messages emitted from step 4 on. -/
def logs4 (env : Responses) (topic : String) : List String :=
  if env.r4.ok then
    ["Step 4: Random quote fetched for topic: " ++ topic,
     "Step 5: All data processing complete!"]
  else []

/-- The console.log messages emitted from step 3 on. -/
def logs3 (env : Responses) (topic : String) : List String :=
  if env.r3.ok then
    ("Step 3: Related quotes fetched for topic: " ++ topic) :: logs4 env topic
  else []

/-- The console.log messages emitted from step 2 on. -/
def logs2 (env : Responses) (topic : String) : List String :=
  if env.r2.ok then
    ("Step 2: Author details fetched for topic: " ++ topic) :: logs3 env topic
  else []

/-- The console.log messages emitted from step 1 on. -/
def logs1 (env : Responses) (topic : String) : List String :=
  if env.r1.ok then
    ("Step 1: Quotes fetched for topic: " ++ topic) :: logs2 env topic
  else []

/-- The console.log message step K emits on success (step 5 is the completion
log). -/
def successLog (topic : String) : Nat → String
  | 1 => "Step 1: Quotes fetched for topic: " ++ topic
  | 2 => "Step 2: Author details fetched for topic: " ++ topic
  | 3 => "Step 3: Related quotes fetched for topic: " ++ topic
  | 4 => "Step 4: Random quote fetched for topic: " ++ topic
  | _ => "Step 5: All data processing complete!"

/-- The payload of a loaded response (a transport failure carries none; the
value there is never used by the claims). -/
def Response.payload : Response → Payload
  | .transport => .list []
  | .loaded _ p => p

/-- The display region of step K (1-based). -/
def regOf : Nat → Region
  | 1 => .quotes
  | 2 => .authorInfo
  | 3 => .relatedQuotes
  | _ => .randomQuote

/-- The innerHTML step K renders into its region on success. -/
def renderOf (env : Responses) (count : String) : Nat → String
  | 1 => quotesHtml env.r1.payload count
  | 2 => authorInfoHtml env.r2.payload
  | 3 => relatedHtml env.r3.payload
  | _ => randomQuoteHtml env.r4.payload

section TraceLemmas

theorem progressPcts_append (a b : List Event) :
    progressPcts (a ++ b) = progressPcts a ++ progressPcts b :=
  List.filterMap_append ..

theorem buttonEvts_append (a b : List Event) :
    buttonEvts (a ++ b) = buttonEvts a ++ buttonEvts b :=
  List.filterMap_append ..

theorem requests_append (a b : List Event) :
    requests (a ++ b) = requests a ++ requests b :=
  List.filterMap_append ..

theorem logMsgs_append (a b : List Event) :
    logMsgs (a ++ b) = logMsgs a ++ logMsgs b :=
  List.filterMap_append ..

theorem trace_setRegion (st : State) (r : Region) (h : String) :
    (setRegion st r h).trace = st.trace ++ [.render r h] := by
  cases r <;> simp [setRegion, emit]

theorem trace_errorOverwrite (msg : String) (st : State) (r : Region) :
    (errorOverwrite msg st r).trace = st.trace ∨
      (errorOverwrite msg st r).trace = st.trace ++ [.render r (errorDiv msg)] := by
  unfold errorOverwrite
  split
  · exact Or.inr (trace_setRegion ..)
  · exact Or.inl rfl

theorem progressPcts_errorOverwrite (msg : String) (st : State) (r : Region) :
    progressPcts (errorOverwrite msg st r).trace = progressPcts st.trace := by
  rcases trace_errorOverwrite msg st r with h | h <;>
    simp [h, progressPcts_append, progressPcts]

theorem buttonEvts_errorOverwrite (msg : String) (st : State) (r : Region) :
    buttonEvts (errorOverwrite msg st r).trace = buttonEvts st.trace := by
  rcases trace_errorOverwrite msg st r with h | h <;>
    simp [h, buttonEvts_append, buttonEvts]

theorem requests_errorOverwrite (msg : String) (st : State) (r : Region) :
    requests (errorOverwrite msg st r).trace = requests st.trace := by
  rcases trace_errorOverwrite msg st r with h | h <;>
    simp [h, requests_append, requests]

theorem logMsgs_errorOverwrite (msg : String) (st : State) (r : Region) :
    logMsgs (errorOverwrite msg st r).trace = logMsgs st.trace := by
  rcases trace_errorOverwrite msg st r with h | h <;>
    simp [h, logMsgs_append, logMsgs]

theorem progressPcts_handleError (msg : String) (st : State) :
    progressPcts (handleError msg st).trace = progressPcts st.trace ++ [0] := by
  simp only [handleError]
  rw [progressPcts_errorOverwrite, progressPcts_errorOverwrite,
    progressPcts_errorOverwrite, progressPcts_errorOverwrite]
  simp [conError, updateProgress, enableButton, emit, progressPcts_append, progressPcts]

theorem buttonEvts_handleError (msg : String) (st : State) :
    buttonEvts (handleError msg st).trace = buttonEvts st.trace ++ [true] := by
  simp only [handleError]
  rw [buttonEvts_errorOverwrite, buttonEvts_errorOverwrite,
    buttonEvts_errorOverwrite, buttonEvts_errorOverwrite]
  simp [conError, updateProgress, enableButton, emit, buttonEvts_append, buttonEvts]

theorem requests_handleError (msg : String) (st : State) :
    requests (handleError msg st).trace = requests st.trace := by
  simp only [handleError]
  rw [requests_errorOverwrite, requests_errorOverwrite,
    requests_errorOverwrite, requests_errorOverwrite]
  simp [conError, updateProgress, enableButton, emit, requests_append, requests]

theorem logMsgs_handleError (msg : String) (st : State) :
    logMsgs (handleError msg st).trace = logMsgs st.trace := by
  simp only [handleError]
  rw [logMsgs_errorOverwrite, logMsgs_errorOverwrite,
    logMsgs_errorOverwrite, logMsgs_errorOverwrite]
  simp [conError, updateProgress, enableButton, emit, logMsgs_append, logMsgs]

theorem progressPcts_step5 (st : State) :
    progressPcts (step5 st).trace = progressPcts st.trace ++ [100] := by
  simp [step5, conLog, updateProgress, enableButton, emit, progressPcts,
    List.filterMap_append]

theorem progressPcts_step4 (topic url : String) (env : Responses) (st : State) :
    progressPcts (step4 topic url env st).trace = progressPcts st.trace ++ pcts4 env := by
  obtain ⟨r1, r2, r3, r4⟩ := env
  cases r4 with
  | transport =>
    simp only [step4]
    rw [progressPcts_handleError]
    simp [pcts4, Response.ok, emit, progressPcts, List.filterMap_append]
  | loaded s p =>
    simp only [step4]
    by_cases hs : s = 200
    · rw [if_pos hs, progressPcts_step5]
      simp [pcts4, Response.ok, hs, displayRandomQuote, setRegion, conLog,
        updateProgress, emit, progressPcts, List.filterMap_append]
    · rw [if_neg hs, progressPcts_handleError]
      simp [pcts4, Response.ok, hs, emit, progressPcts, List.filterMap_append]

theorem progressPcts_step3 (topic url : String) (env : Responses) (st : State) :
    progressPcts (step3 topic url env st).trace = progressPcts st.trace ++ pcts3 env := by
  obtain ⟨r1, r2, r3, r4⟩ := env
  cases r3 with
  | transport =>
    simp only [step3]
    rw [progressPcts_handleError]
    simp [pcts3, Response.ok, emit, progressPcts, List.filterMap_append]
  | loaded s p =>
    simp only [step3]
    by_cases hs : s = 200
    · rw [if_pos hs, progressPcts_step4]
      simp [pcts3, Response.ok, hs, displayRelatedQuotes, setRegion, conLog,
        updateProgress, emit, progressPcts, List.filterMap_append]
    · rw [if_neg hs, progressPcts_handleError]
      simp [pcts3, Response.ok, hs, emit, progressPcts, List.filterMap_append]

theorem progressPcts_step2 (topic url : String) (env : Responses) (st : State) :
    progressPcts (step2 topic url env st).trace = progressPcts st.trace ++ pcts2 env := by
  obtain ⟨r1, r2, r3, r4⟩ := env
  cases r2 with
  | transport =>
    simp only [step2]
    rw [progressPcts_handleError]
    simp [pcts2, Response.ok, emit, progressPcts, List.filterMap_append]
  | loaded s p =>
    simp only [step2]
    by_cases hs : s = 200
    · rw [if_pos hs, progressPcts_step3]
      simp [pcts2, Response.ok, hs, displayAuthorInfo, setRegion, conLog,
        updateProgress, emit, progressPcts, List.filterMap_append]
    · rw [if_neg hs, progressPcts_handleError]
      simp [pcts2, Response.ok, hs, emit, progressPcts, List.filterMap_append]

theorem progressPcts_fetchQuotes (topic count : String) (env : Responses) (st : State) :
    progressPcts (fetchQuotes topic count env st).trace = progressPcts st.trace ++ pcts1 env := by
  obtain ⟨r1, r2, r3, r4⟩ := env
  cases r1 with
  | transport =>
    simp only [fetchQuotes]
    rw [progressPcts_handleError]
    simp [pcts1, Response.ok, emit, progressPcts, List.filterMap_append]
  | loaded s p =>
    simp only [fetchQuotes]
    by_cases hs : s = 200
    · rw [if_pos hs, progressPcts_step2]
      simp [pcts1, Response.ok, hs, displayQuotes, setRegion, conLog,
        updateProgress, emit, progressPcts, List.filterMap_append]
    · rw [if_neg hs, progressPcts_handleError]
      simp [pcts1, Response.ok, hs, emit, progressPcts, List.filterMap_append]

theorem progressPcts_clickRun (topic count : String) (env : Responses) :
    progressPcts (clickRun topic count env).trace = 0 :: pcts1 env := by
  simp only [clickRun]
  rw [progressPcts_fetchQuotes]
  simp [resetDashboard, showSpinner, setRegion, updateProgress, emit, pageLoad,
    progressPcts, List.filterMap_append]

theorem buttonEvts_step5 (st : State) :
    buttonEvts (step5 st).trace = buttonEvts st.trace ++ [true] := by
  simp [step5, conLog, updateProgress, enableButton, emit, buttonEvts,
    List.filterMap_append]

theorem buttonEvts_step4 (topic url : String) (env : Responses) (st : State) :
    buttonEvts (step4 topic url env st).trace = buttonEvts st.trace ++ [true] := by
  obtain ⟨r1, r2, r3, r4⟩ := env
  cases r4 with
  | transport =>
    simp only [step4]
    rw [buttonEvts_handleError]
    simp [emit, buttonEvts, List.filterMap_append]
  | loaded s p =>
    simp only [step4]
    by_cases hs : s = 200
    · rw [if_pos hs, buttonEvts_step5]
      simp [displayRandomQuote, setRegion, conLog, updateProgress, emit,
        buttonEvts, List.filterMap_append]
    · rw [if_neg hs, buttonEvts_handleError]
      simp [emit, buttonEvts, List.filterMap_append]

theorem buttonEvts_step3 (topic url : String) (env : Responses) (st : State) :
    buttonEvts (step3 topic url env st).trace = buttonEvts st.trace ++ [true] := by
  obtain ⟨r1, r2, r3, r4⟩ := env
  cases r3 with
  | transport =>
    simp only [step3]
    rw [buttonEvts_handleError]
    simp [emit, buttonEvts, List.filterMap_append]
  | loaded s p =>
    simp only [step3]
    by_cases hs : s = 200
    · rw [if_pos hs, buttonEvts_step4]
      simp [displayRelatedQuotes, setRegion, conLog, updateProgress, emit,
        buttonEvts, List.filterMap_append]
    · rw [if_neg hs, buttonEvts_handleError]
      simp [emit, buttonEvts, List.filterMap_append]

theorem buttonEvts_step2 (topic url : String) (env : Responses) (st : State) :
    buttonEvts (step2 topic url env st).trace = buttonEvts st.trace ++ [true] := by
  obtain ⟨r1, r2, r3, r4⟩ := env
  cases r2 with
  | transport =>
    simp only [step2]
    rw [buttonEvts_handleError]
    simp [emit, buttonEvts, List.filterMap_append]
  | loaded s p =>
    simp only [step2]
    by_cases hs : s = 200
    · rw [if_pos hs, buttonEvts_step3]
      simp [displayAuthorInfo, setRegion, conLog, updateProgress, emit,
        buttonEvts, List.filterMap_append]
    · rw [if_neg hs, buttonEvts_handleError]
      simp [emit, buttonEvts, List.filterMap_append]

theorem buttonEvts_fetchQuotes (topic count : String) (env : Responses) (st : State) :
    buttonEvts (fetchQuotes topic count env st).trace = buttonEvts st.trace ++ [true] := by
  obtain ⟨r1, r2, r3, r4⟩ := env
  cases r1 with
  | transport =>
    simp only [fetchQuotes]
    rw [buttonEvts_handleError]
    simp [emit, buttonEvts, List.filterMap_append]
  | loaded s p =>
    simp only [fetchQuotes]
    by_cases hs : s = 200
    · rw [if_pos hs, buttonEvts_step2]
      simp [displayQuotes, setRegion, conLog, updateProgress, emit,
        buttonEvts, List.filterMap_append]
    · rw [if_neg hs, buttonEvts_handleError]
      simp [emit, buttonEvts, List.filterMap_append]

theorem buttonEvts_clickRun (topic count : String) (env : Responses) :
    buttonEvts (clickRun topic count env).trace = [false, true] := by
  simp only [clickRun]
  rw [buttonEvts_fetchQuotes]
  simp [resetDashboard, showSpinner, setRegion, updateProgress, emit, pageLoad,
    buttonEvts, List.filterMap_append]

theorem requests_step5 (st : State) :
    requests (step5 st).trace = requests st.trace := by
  simp [step5, conLog, updateProgress, enableButton, emit, requests,
    List.filterMap_append]

theorem requests_step4 (topic url : String) (env : Responses) (st : State) :
    requests (step4 topic url env st).trace =
      requests st.trace ++ List.replicate (reqs4 env) ("GET", url) := by
  obtain ⟨r1, r2, r3, r4⟩ := env
  cases r4 with
  | transport =>
    simp only [step4]
    rw [requests_handleError]
    simp [reqs4, emit, requests, List.filterMap_append]
  | loaded s p =>
    simp only [step4]
    by_cases hs : s = 200
    · rw [if_pos hs, requests_step5]
      simp [reqs4, displayRandomQuote, setRegion, conLog, updateProgress, emit,
        requests, List.filterMap_append]
    · rw [if_neg hs, requests_handleError]
      simp [reqs4, emit, requests, List.filterMap_append]

theorem requests_step3 (topic url : String) (env : Responses) (st : State) :
    requests (step3 topic url env st).trace =
      requests st.trace ++ List.replicate (reqs3 env) ("GET", url) := by
  obtain ⟨r1, r2, r3, r4⟩ := env
  cases r3 with
  | transport =>
    simp only [step3]
    rw [requests_handleError]
    simp [reqs3, Response.ok, emit, requests, List.filterMap_append]
  | loaded s p =>
    simp only [step3]
    by_cases hs : s = 200
    · rw [if_pos hs, requests_step4]
      simp [reqs3, reqs4, Response.ok, hs, displayRelatedQuotes, setRegion, conLog,
        updateProgress, emit, requests, List.filterMap_append, List.replicate_succ]
    · rw [if_neg hs, requests_handleError]
      simp [reqs3, Response.ok, hs, emit, requests, List.filterMap_append]

theorem requests_step2 (topic url : String) (env : Responses) (st : State) :
    requests (step2 topic url env st).trace =
      requests st.trace ++ List.replicate (reqs2 env) ("GET", url) := by
  obtain ⟨r1, r2, r3, r4⟩ := env
  cases r2 with
  | transport =>
    simp only [step2]
    rw [requests_handleError]
    simp [reqs2, Response.ok, emit, requests, List.filterMap_append]
  | loaded s p =>
    simp only [step2]
    by_cases hs : s = 200
    · rw [if_pos hs, requests_step3]
      simp [reqs2, Response.ok, hs, displayAuthorInfo, setRegion, conLog,
        updateProgress, emit, requests, List.filterMap_append]
      rw [Nat.add_comm, List.replicate_succ]
    · rw [if_neg hs, requests_handleError]
      simp [reqs2, Response.ok, hs, emit, requests, List.filterMap_append]

theorem requests_fetchQuotes (topic count : String) (env : Responses) (st : State) :
    requests (fetchQuotes topic count env st).trace =
      requests st.trace ++ List.replicate (reqs1 env) ("GET", mkUrl topic count) := by
  obtain ⟨r1, r2, r3, r4⟩ := env
  cases r1 with
  | transport =>
    simp only [fetchQuotes]
    rw [requests_handleError]
    simp [reqs1, Response.ok, emit, requests, List.filterMap_append]
  | loaded s p =>
    simp only [fetchQuotes]
    by_cases hs : s = 200
    · rw [if_pos hs, requests_step2]
      simp [reqs1, Response.ok, hs, displayQuotes, setRegion, conLog,
        updateProgress, emit, requests, List.filterMap_append]
      rw [Nat.add_comm, List.replicate_succ]
    · rw [if_neg hs, requests_handleError]
      simp [reqs1, Response.ok, hs, emit, requests, List.filterMap_append]

theorem requests_clickRun (topic count : String) (env : Responses) :
    requests (clickRun topic count env).trace =
      List.replicate (reqs1 env) ("GET", mkUrl topic count) := by
  simp only [clickRun]
  rw [requests_fetchQuotes]
  simp [resetDashboard, showSpinner, setRegion, updateProgress, emit, pageLoad,
    requests, List.filterMap_append]

theorem logMsgs_step5 (st : State) :
    logMsgs (step5 st).trace = logMsgs st.trace ++ ["Step 5: All data processing complete!"] := by
  simp [step5, conLog, updateProgress, enableButton, emit, logMsgs,
    List.filterMap_append]

theorem logMsgs_step4 (topic url : String) (env : Responses) (st : State) :
    logMsgs (step4 topic url env st).trace = logMsgs st.trace ++ logs4 env topic := by
  obtain ⟨r1, r2, r3, r4⟩ := env
  cases r4 with
  | transport =>
    simp only [step4]
    rw [logMsgs_handleError]
    simp [logs4, Response.ok, emit, logMsgs, List.filterMap_append]
  | loaded s p =>
    simp only [step4]
    by_cases hs : s = 200
    · rw [if_pos hs, logMsgs_step5]
      simp [logs4, Response.ok, hs, displayRandomQuote, setRegion, conLog,
        updateProgress, emit, logMsgs, List.filterMap_append]
    · rw [if_neg hs, logMsgs_handleError]
      simp [logs4, Response.ok, hs, emit, logMsgs, List.filterMap_append]

theorem logMsgs_step3 (topic url : String) (env : Responses) (st : State) :
    logMsgs (step3 topic url env st).trace = logMsgs st.trace ++ logs3 env topic := by
  obtain ⟨r1, r2, r3, r4⟩ := env
  cases r3 with
  | transport =>
    simp only [step3]
    rw [logMsgs_handleError]
    simp [logs3, Response.ok, emit, logMsgs, List.filterMap_append]
  | loaded s p =>
    simp only [step3]
    by_cases hs : s = 200
    · rw [if_pos hs, logMsgs_step4]
      simp [logs3, Response.ok, hs, displayRelatedQuotes, setRegion, conLog,
        updateProgress, emit, logMsgs, List.filterMap_append]
    · rw [if_neg hs, logMsgs_handleError]
      simp [logs3, Response.ok, hs, emit, logMsgs, List.filterMap_append]

theorem logMsgs_step2 (topic url : String) (env : Responses) (st : State) :
    logMsgs (step2 topic url env st).trace = logMsgs st.trace ++ logs2 env topic := by
  obtain ⟨r1, r2, r3, r4⟩ := env
  cases r2 with
  | transport =>
    simp only [step2]
    rw [logMsgs_handleError]
    simp [logs2, Response.ok, emit, logMsgs, List.filterMap_append]
  | loaded s p =>
    simp only [step2]
    by_cases hs : s = 200
    · rw [if_pos hs, logMsgs_step3]
      simp [logs2, Response.ok, hs, displayAuthorInfo, setRegion, conLog,
        updateProgress, emit, logMsgs, List.filterMap_append]
    · rw [if_neg hs, logMsgs_handleError]
      simp [logs2, Response.ok, hs, emit, logMsgs, List.filterMap_append]

theorem logMsgs_fetchQuotes (topic count : String) (env : Responses) (st : State) :
    logMsgs (fetchQuotes topic count env st).trace = logMsgs st.trace ++ logs1 env topic := by
  obtain ⟨r1, r2, r3, r4⟩ := env
  cases r1 with
  | transport =>
    simp only [fetchQuotes]
    rw [logMsgs_handleError]
    simp [logs1, Response.ok, emit, logMsgs, List.filterMap_append]
  | loaded s p =>
    simp only [fetchQuotes]
    by_cases hs : s = 200
    · rw [if_pos hs, logMsgs_step2]
      simp [logs1, Response.ok, hs, displayQuotes, setRegion, conLog,
        updateProgress, emit, logMsgs, List.filterMap_append]
    · rw [if_neg hs, logMsgs_handleError]
      simp [logs1, Response.ok, hs, emit, logMsgs, List.filterMap_append]

theorem logMsgs_clickRun (topic count : String) (env : Responses) :
    logMsgs (clickRun topic count env).trace = logs1 env topic := by
  simp only [clickRun]
  rw [logMsgs_fetchQuotes]
  simp [resetDashboard, showSpinner, setRegion, updateProgress, emit, pageLoad,
    logMsgs, List.filterMap_append]

end TraceLemmas

section StateLemmas

theorem Response.ok_iff (r : Response) : r.ok = true ↔ ∃ p, r = .loaded 200 p := by
  cases r with
  | transport => simp [Response.ok]
  | loaded s p => simp [Response.ok, beq_iff_eq]

theorem region_emit (st : State) (e : Event) (r : Region) :
    (emit st e).region r = st.region r := by
  cases r <;> rfl

theorem region_setRegion (st : State) (r0 : Region) (h : String) (r : Region) :
    (setRegion st r0 h).region r = if r = r0 then h else st.region r := by
  cases r0 <;> cases r <;> simp [setRegion, emit, State.region]

theorem region_conLog (st : State) (m : String) (r : Region) :
    (conLog st m).region r = st.region r := by
  cases r <;> rfl

theorem region_conError (st : State) (m : String) (r : Region) :
    (conError st m).region r = st.region r := by
  cases r <;> rfl

theorem region_updateProgress (st : State) (p : Nat) (t : String) (r : Region) :
    (updateProgress st p t).region r = st.region r := by
  cases r <;> rfl

theorem region_enableButton (st : State) (r : Region) :
    (enableButton st).region r = st.region r := by
  cases r <;> rfl

theorem region_resetDashboard (st : State) (r : Region) :
    (resetDashboard st).region r = "<div class=\"spinner\"></div>" := by
  cases r <;>
    simp [resetDashboard, showSpinner, setRegion, emit, updateProgress, State.region]

theorem region_errorOverwrite (msg : String) (st : State) (r0 r : Region) :
    (errorOverwrite msg st r0).region r =
      if r = r0 ∧ containsSub (st.region r0) "spinner" = true then errorDiv msg
      else st.region r := by
  unfold errorOverwrite
  split
  · rename_i hc
    rw [region_setRegion]
    by_cases hr : r = r0 <;> simp [hr, hc]
  · rename_i hc
    simp [hc]

theorem region_handleError (msg : String) (st : State) (r : Region) :
    (handleError msg st).region r =
      if containsSub (st.region r) "spinner" = true then errorDiv msg
      else st.region r := by
  cases r <;>
    simp [handleError, region_errorOverwrite, region_conLog, region_conError,
      region_updateProgress, region_enableButton, region_emit]

theorem progressPercent_errorOverwrite (msg : String) (st : State) (r : Region) :
    (errorOverwrite msg st r).progressPercent = st.progressPercent := by
  unfold errorOverwrite
  split
  · cases r <;> simp [setRegion, emit]
  · rfl

theorem progressText_errorOverwrite (msg : String) (st : State) (r : Region) :
    (errorOverwrite msg st r).progressText = st.progressText := by
  unfold errorOverwrite
  split
  · cases r <;> simp [setRegion, emit]
  · rfl

theorem buttonDisabled_errorOverwrite (msg : String) (st : State) (r : Region) :
    (errorOverwrite msg st r).buttonDisabled = st.buttonDisabled := by
  unfold errorOverwrite
  split
  · cases r <;> simp [setRegion, emit]
  · rfl

theorem buttonText_errorOverwrite (msg : String) (st : State) (r : Region) :
    (errorOverwrite msg st r).buttonText = st.buttonText := by
  unfold errorOverwrite
  split
  · cases r <;> simp [setRegion, emit]
  · rfl

theorem progressPercent_handleError (msg : String) (st : State) :
    (handleError msg st).progressPercent = 0 := by
  simp [handleError, progressPercent_errorOverwrite, conError, updateProgress,
    enableButton, emit]

theorem progressText_handleError (msg : String) (st : State) :
    (handleError msg st).progressText = "Error occurred during data fetching" := by
  simp [handleError, progressText_errorOverwrite, conError, updateProgress,
    enableButton, emit]

theorem buttonDisabled_handleError (msg : String) (st : State) :
    (handleError msg st).buttonDisabled = false := by
  simp [handleError, buttonDisabled_errorOverwrite, conError, updateProgress,
    enableButton, emit]

theorem buttonText_handleError (msg : String) (st : State) :
    (handleError msg st).buttonText = "Fetch All Data" := by
  simp [handleError, buttonText_errorOverwrite, conError, updateProgress,
    enableButton, emit]

end StateLemmas

section StepLemmas

theorem fetchQuotes_ok (topic count : String) (env : Responses) (st : State) (p : Payload)
    (h : env.r1 = .loaded 200 p) :
    fetchQuotes topic count env st =
      step2 topic (mkUrl topic count) env
        (displayQuotes
          (updateProgress
            (conLog (emit st (.request "GET" (mkUrl topic count)))
              ("Step 1: Quotes fetched for topic: " ++ topic))
            20 "Step 1/5: Quotes loaded!")
          p count) := by
  simp [fetchQuotes, h]

theorem step2_ok (topic url : String) (env : Responses) (st : State) (p : Payload)
    (h : env.r2 = .loaded 200 p) :
    step2 topic url env st =
      step3 topic url env
        (displayAuthorInfo
          (updateProgress
            (conLog (emit st (.request "GET" url))
              ("Step 2: Author details fetched for topic: " ++ topic))
            40 "Step 2/5: Author info loaded!")
          p) := by
  simp [step2, h]

theorem step3_ok (topic url : String) (env : Responses) (st : State) (p : Payload)
    (h : env.r3 = .loaded 200 p) :
    step3 topic url env st =
      step4 topic url env
        (displayRelatedQuotes
          (updateProgress
            (conLog (emit st (.request "GET" url))
              ("Step 3: Related quotes fetched for topic: " ++ topic))
            60 "Step 3/5: Related quotes loaded!")
          p) := by
  simp [step3, h]

theorem step4_ok (topic url : String) (env : Responses) (st : State) (p : Payload)
    (h : env.r4 = .loaded 200 p) :
    step4 topic url env st =
      step5
        (displayRandomQuote
          (updateProgress
            (conLog (emit st (.request "GET" url))
              ("Step 4: Random quote fetched for topic: " ++ topic))
            80 "Step 4/5: Random quote loaded!")
          p) := by
  simp [step4, h]

theorem fetchQuotes_err (topic count : String) (env : Responses) (st : State)
    (h : env.r1.ok = false) :
    fetchQuotes topic count env st =
      handleError (failMsg 1 env) (emit st (.request "GET" (mkUrl topic count))) := by
  cases hr : env.r1 with
  | transport => simp [fetchQuotes, hr, failMsg, Responses.nth, stepNoun]
  | loaded s p =>
    have hs : ¬ s = 200 := by
      rw [hr] at h
      simpa [Response.ok] using h
    simp [fetchQuotes, hr, hs, failMsg, Responses.nth, stepNoun]

theorem step2_err (topic url : String) (env : Responses) (st : State)
    (h : env.r2.ok = false) :
    step2 topic url env st =
      handleError (failMsg 2 env) (emit st (.request "GET" url)) := by
  cases hr : env.r2 with
  | transport => simp [step2, hr, failMsg, Responses.nth, stepNoun]
  | loaded s p =>
    have hs : ¬ s = 200 := by
      rw [hr] at h
      simpa [Response.ok] using h
    simp [step2, hr, hs, failMsg, Responses.nth, stepNoun]

theorem step3_err (topic url : String) (env : Responses) (st : State)
    (h : env.r3.ok = false) :
    step3 topic url env st =
      handleError (failMsg 3 env) (emit st (.request "GET" url)) := by
  cases hr : env.r3 with
  | transport => simp [step3, hr, failMsg, Responses.nth, stepNoun]
  | loaded s p =>
    have hs : ¬ s = 200 := by
      rw [hr] at h
      simpa [Response.ok] using h
    simp [step3, hr, hs, failMsg, Responses.nth, stepNoun]

theorem step4_err (topic url : String) (env : Responses) (st : State)
    (h : env.r4.ok = false) :
    step4 topic url env st =
      handleError (failMsg 4 env) (emit st (.request "GET" url)) := by
  cases hr : env.r4 with
  | transport => simp [step4, hr, failMsg, Responses.nth, stepNoun]
  | loaded s p =>
    have hs : ¬ s = 200 := by
      rw [hr] at h
      simpa [Response.ok] using h
    simp [step4, hr, hs, failMsg, Responses.nth, stepNoun]

theorem clickRun_fail (topic count : String) (env : Responses) (K : Nat)
    (h : failsAt env K) :
    ∃ mid, clickRun topic count env = handleError (failMsg K env) mid := by
  obtain ⟨hK1, hK4, hsc⟩ := h
  have hcases := hsc
  interval_cases K
  · simp only [succCount] at hcases
    split_ifs at hcases with hb1 hb2 hb3 hb4
    all_goals {
      exact ⟨_, fetchQuotes_err topic count env (resetDashboard pageLoad)
        (by simpa using hb1)⟩
    }
  · simp only [succCount] at hcases
    split_ifs at hcases with hb1 hb2 hb3 hb4
    all_goals try omega
    all_goals {
      obtain ⟨p1, hp1⟩ := (Response.ok_iff env.r1).mp hb1
      exact ⟨_, (fetchQuotes_ok topic count env (resetDashboard pageLoad) p1 hp1).trans
        (step2_err _ _ _ _ (by simpa using hb2))⟩
    }
  · simp only [succCount] at hcases
    split_ifs at hcases with hb1 hb2 hb3 hb4
    all_goals try omega
    all_goals {
      obtain ⟨p1, hp1⟩ := (Response.ok_iff env.r1).mp hb1
      obtain ⟨p2, hp2⟩ := (Response.ok_iff env.r2).mp hb2
      exact ⟨_, ((fetchQuotes_ok topic count env (resetDashboard pageLoad) p1 hp1).trans
        (step2_ok _ _ _ _ p2 hp2)).trans
        (step3_err _ _ _ _ (by simpa using hb3))⟩
    }
  · simp only [succCount] at hcases
    split_ifs at hcases with hb1 hb2 hb3 hb4
    all_goals try omega
    all_goals {
      obtain ⟨p1, hp1⟩ := (Response.ok_iff env.r1).mp hb1
      obtain ⟨p2, hp2⟩ := (Response.ok_iff env.r2).mp hb2
      obtain ⟨p3, hp3⟩ := (Response.ok_iff env.r3).mp hb3
      exact ⟨_, (((fetchQuotes_ok topic count env (resetDashboard pageLoad) p1 hp1).trans
        (step2_ok _ _ _ _ p2 hp2)).trans
        (step3_ok _ _ _ _ p3 hp3)).trans
        (step4_err _ _ _ _ (by simpa using hb4))⟩
    }

theorem buttonDisabled_step5 (st : State) : (step5 st).buttonDisabled = false := rfl

theorem buttonDisabled_step4 (topic url : String) (env : Responses) (st : State) :
    (step4 topic url env st).buttonDisabled = false := by
  cases hr : env.r4 with
  | transport =>
    rw [step4_err _ _ _ _ (by simp [Response.ok, hr])]
    exact buttonDisabled_handleError ..
  | loaded s p =>
    by_cases hs : s = 200
    · rw [step4_ok _ _ _ _ p (by rw [hr, hs])]
      exact buttonDisabled_step5 ..
    · rw [step4_err _ _ _ _ (by simp [Response.ok, hr, hs])]
      exact buttonDisabled_handleError ..

theorem buttonDisabled_step3 (topic url : String) (env : Responses) (st : State) :
    (step3 topic url env st).buttonDisabled = false := by
  cases hr : env.r3 with
  | transport =>
    rw [step3_err _ _ _ _ (by simp [Response.ok, hr])]
    exact buttonDisabled_handleError ..
  | loaded s p =>
    by_cases hs : s = 200
    · rw [step3_ok _ _ _ _ p (by rw [hr, hs])]
      exact buttonDisabled_step4 ..
    · rw [step3_err _ _ _ _ (by simp [Response.ok, hr, hs])]
      exact buttonDisabled_handleError ..

theorem buttonDisabled_step2 (topic url : String) (env : Responses) (st : State) :
    (step2 topic url env st).buttonDisabled = false := by
  cases hr : env.r2 with
  | transport =>
    rw [step2_err _ _ _ _ (by simp [Response.ok, hr])]
    exact buttonDisabled_handleError ..
  | loaded s p =>
    by_cases hs : s = 200
    · rw [step2_ok _ _ _ _ p (by rw [hr, hs])]
      exact buttonDisabled_step3 ..
    · rw [step2_err _ _ _ _ (by simp [Response.ok, hr, hs])]
      exact buttonDisabled_handleError ..

theorem buttonDisabled_fetchQuotes (topic count : String) (env : Responses) (st : State) :
    (fetchQuotes topic count env st).buttonDisabled = false := by
  cases hr : env.r1 with
  | transport =>
    rw [fetchQuotes_err _ _ _ _ (by simp [Response.ok, hr])]
    exact buttonDisabled_handleError ..
  | loaded s p =>
    by_cases hs : s = 200
    · rw [fetchQuotes_ok _ _ _ _ p (by rw [hr, hs])]
      exact buttonDisabled_step2 ..
    · rw [fetchQuotes_err _ _ _ _ (by simp [Response.ok, hr, hs])]
      exact buttonDisabled_handleError ..

theorem buttonDisabled_clickRun (topic count : String) (env : Responses) :
    (clickRun topic count env).buttonDisabled = false :=
  buttonDisabled_fetchQuotes ..

theorem trace_sublist_errorOverwrite (msg : String) (st : State) (r : Region) :
    st.trace.Sublist (errorOverwrite msg st r).trace := by
  rcases trace_errorOverwrite msg st r with h | h
  · rw [h]
  · rw [h]
    exact List.sublist_append_left ..

theorem trace_sublist_handleError (msg : String) (st : State) :
    st.trace.Sublist (handleError msg st).trace := by
  simp only [handleError]
  have h0 : st.trace.Sublist
      (enableButton (updateProgress (conError st msg) 0
        "Error occurred during data fetching")).trace := by
    have h : (enableButton (updateProgress (conError st msg) 0
        "Error occurred during data fetching")).trace =
        st.trace ++ [Event.conError msg,
          Event.progress 0 "Error occurred during data fetching", Event.button true] := by
      simp [conError, updateProgress, enableButton, emit]
    rw [h]
    exact List.sublist_append_left ..
  exact h0.trans ((trace_sublist_errorOverwrite ..).trans
    ((trace_sublist_errorOverwrite ..).trans
      ((trace_sublist_errorOverwrite ..).trans (trace_sublist_errorOverwrite ..))))

theorem conError_mem_handleError (msg : String) (st : State) :
    Event.conError msg ∈ (handleError msg st).trace := by
  have h0 : Event.conError msg ∈
      (enableButton (updateProgress (conError st msg) 0
        "Error occurred during data fetching")).trace := by
    simp [conError, updateProgress, enableButton, emit]
  simp only [handleError]
  exact ((trace_sublist_errorOverwrite ..).trans
    ((trace_sublist_errorOverwrite ..).trans
      ((trace_sublist_errorOverwrite ..).trans (trace_sublist_errorOverwrite ..)))).subset h0

theorem trace_sublist_step5 (st : State) : st.trace.Sublist (step5 st).trace := by
  have h : (step5 st).trace = st.trace ++
      [Event.conLog "Step 5: All data processing complete!",
       Event.progress 100 "Complete! All data loaded successfully.",
       Event.button true] := by
    simp [step5, conLog, updateProgress, enableButton, emit]
  rw [h]
  exact List.sublist_append_left ..

theorem trace_sublist_step4 (topic url : String) (env : Responses) (st : State) :
    st.trace.Sublist (step4 topic url env st).trace := by
  cases hr : env.r4 with
  | transport =>
    rw [step4_err _ _ _ _ (by simp [Response.ok, hr])]
    refine List.Sublist.trans ?_ (trace_sublist_handleError _ _)
    exact List.sublist_append_left ..
  | loaded s p =>
    by_cases hs : s = 200
    · rw [step4_ok _ _ _ _ p (by rw [hr, hs])]
      refine List.Sublist.trans ?_ (trace_sublist_step5 _)
      have h : (displayRandomQuote
          (updateProgress
            (conLog (emit st (.request "GET" url))
              ("Step 4: Random quote fetched for topic: " ++ topic))
            80 "Step 4/5: Random quote loaded!") p).trace = st.trace ++
          [Event.request "GET" url,
           Event.conLog ("Step 4: Random quote fetched for topic: " ++ topic),
           Event.progress 80 "Step 4/5: Random quote loaded!",
           Event.render .randomQuote (randomQuoteHtml p)] := by
        simp [displayRandomQuote, setRegion, conLog, updateProgress, emit]
      rw [h]
      exact List.sublist_append_left ..
    · rw [step4_err _ _ _ _ (by simp [Response.ok, hr, hs])]
      refine List.Sublist.trans ?_ (trace_sublist_handleError _ _)
      exact List.sublist_append_left ..

theorem trace_sublist_step3 (topic url : String) (env : Responses) (st : State) :
    st.trace.Sublist (step3 topic url env st).trace := by
  cases hr : env.r3 with
  | transport =>
    rw [step3_err _ _ _ _ (by simp [Response.ok, hr])]
    refine List.Sublist.trans ?_ (trace_sublist_handleError _ _)
    exact List.sublist_append_left ..
  | loaded s p =>
    by_cases hs : s = 200
    · rw [step3_ok _ _ _ _ p (by rw [hr, hs])]
      refine List.Sublist.trans ?_ (trace_sublist_step4 _ _ _ _)
      have h : (displayRelatedQuotes
          (updateProgress
            (conLog (emit st (.request "GET" url))
              ("Step 3: Related quotes fetched for topic: " ++ topic))
            60 "Step 3/5: Related quotes loaded!") p).trace = st.trace ++
          [Event.request "GET" url,
           Event.conLog ("Step 3: Related quotes fetched for topic: " ++ topic),
           Event.progress 60 "Step 3/5: Related quotes loaded!",
           Event.render .relatedQuotes (relatedHtml p)] := by
        simp [displayRelatedQuotes, setRegion, conLog, updateProgress, emit]
      rw [h]
      exact List.sublist_append_left ..
    · rw [step3_err _ _ _ _ (by simp [Response.ok, hr, hs])]
      refine List.Sublist.trans ?_ (trace_sublist_handleError _ _)
      exact List.sublist_append_left ..

theorem trace_sublist_step2 (topic url : String) (env : Responses) (st : State) :
    st.trace.Sublist (step2 topic url env st).trace := by
  cases hr : env.r2 with
  | transport =>
    rw [step2_err _ _ _ _ (by simp [Response.ok, hr])]
    refine List.Sublist.trans ?_ (trace_sublist_handleError _ _)
    exact List.sublist_append_left ..
  | loaded s p =>
    by_cases hs : s = 200
    · rw [step2_ok _ _ _ _ p (by rw [hr, hs])]
      refine List.Sublist.trans ?_ (trace_sublist_step3 _ _ _ _)
      have h : (displayAuthorInfo
          (updateProgress
            (conLog (emit st (.request "GET" url))
              ("Step 2: Author details fetched for topic: " ++ topic))
            40 "Step 2/5: Author info loaded!") p).trace = st.trace ++
          [Event.request "GET" url,
           Event.conLog ("Step 2: Author details fetched for topic: " ++ topic),
           Event.progress 40 "Step 2/5: Author info loaded!",
           Event.render .authorInfo (authorInfoHtml p)] := by
        simp [displayAuthorInfo, setRegion, conLog, updateProgress, emit]
      rw [h]
      exact List.sublist_append_left ..
    · rw [step2_err _ _ _ _ (by simp [Response.ok, hr, hs])]
      refine List.Sublist.trans ?_ (trace_sublist_handleError _ _)
      exact List.sublist_append_left ..

end StepLemmas

section Claims

theorem containsSub_spinnerMarkup :
    containsSub "<div class=\"spinner\"></div>" "spinner" = true := by
  decide

/-- C1: when all four network requests succeed with status 200, the workflow
executes the steps in the fixed order Quotes, AuthorInfo, RelatedQuotes,
RandomQuote, then the final completion step, setting the progress percentage
to exactly 20, 40, 60, 80, 100 in that order with no skipped or repeated
values, and the final progress text is the fixed complete message at
percent 100. -/
theorem c1_success_order_and_progress (topic count : String) (p1 p2 p3 p4 : Payload) :
    progressTrace (clickRun topic count
        ⟨.loaded 200 p1, .loaded 200 p2, .loaded 200 p3, .loaded 200 p4⟩).trace =
      [(0, "Starting to fetch data..."), (20, "Step 1/5: Quotes loaded!"),
       (40, "Step 2/5: Author info loaded!"), (60, "Step 3/5: Related quotes loaded!"),
       (80, "Step 4/5: Random quote loaded!"),
       (100, "Complete! All data loaded successfully.")] ∧
    logMsgs (clickRun topic count
        ⟨.loaded 200 p1, .loaded 200 p2, .loaded 200 p3, .loaded 200 p4⟩).trace =
      [successLog topic 1, successLog topic 2, successLog topic 3, successLog topic 4,
       successLog topic 5] ∧
    (clickRun topic count
        ⟨.loaded 200 p1, .loaded 200 p2, .loaded 200 p3, .loaded 200 p4⟩).progressPercent = 100 ∧
    (clickRun topic count
        ⟨.loaded 200 p1, .loaded 200 p2, .loaded 200 p3,
          .loaded 200 p4⟩).progressText = "Complete! All data loaded successfully." := by
  simp [clickRun, fetchQuotes, step2, step3, step4, step5, resetDashboard, showSpinner,
    setRegion, emit, updateProgress, enableButton, conLog, conError, displayQuotes,
    displayAuthorInfo, displayRelatedQuotes, displayRandomQuote, pageLoad,
    progressTrace, logMsgs, successLog]

/-- C2: if the K-th request of a run fails (non-200 status or transport error),
then steps K+1 through 4 and the final completion step never execute: exactly K
requests are issued (so no retry), the progress checkpoints stop at step K-1's
value before the error reset to 0, only steps 1 to K-1 log their completion,
and the run ends in the error status text rather than the complete message. -/
theorem c2_failure_halts_pipeline (topic count : String) (env : Responses) (K : Nat)
    (h : failsAt env K) :
    (requests (clickRun topic count env).trace).length = K ∧
    progressPcts (clickRun topic count env).trace =
      0 :: (stepChecks.take (K - 1) ++ [0]) ∧
    logMsgs (clickRun topic count env).trace =
      (List.range (K - 1)).map (fun j => successLog topic (j + 1)) ∧
    (clickRun topic count env).progressText = "Error occurred during data fetching" := by
  obtain ⟨mid, hmid⟩ := clickRun_fail topic count env K h
  obtain ⟨hK1, hK4, hsc⟩ := h
  rw [requests_clickRun, progressPcts_clickRun, logMsgs_clickRun, hmid,
    progressText_handleError, List.length_replicate]
  clear hmid
  interval_cases K
  · simp only [succCount] at hsc
    split_ifs at hsc with hb1 hb2 hb3 hb4
    all_goals first
      | omega
      | simp [reqs1, reqs2, reqs3, reqs4, pcts1, pcts2, pcts3, pcts4,
          logs1, logs2, logs3, logs4, stepChecks, List.range_succ, successLog, hb1]
  · simp only [succCount] at hsc
    split_ifs at hsc with hb1 hb2 hb3 hb4
    all_goals first
      | omega
      | simp [reqs1, reqs2, reqs3, reqs4, pcts1, pcts2, pcts3, pcts4,
          logs1, logs2, logs3, logs4, stepChecks, List.range_succ, successLog, hb1, hb2]
  · simp only [succCount] at hsc
    split_ifs at hsc with hb1 hb2 hb3 hb4
    all_goals first
      | omega
      | simp [reqs1, reqs2, reqs3, reqs4, pcts1, pcts2, pcts3, pcts4,
          logs1, logs2, logs3, logs4, stepChecks, List.range_succ, successLog, hb1, hb2,
          hb3]
  · simp only [succCount] at hsc
    split_ifs at hsc with hb1 hb2 hb3 hb4
    all_goals first
      | omega
      | simp [reqs1, reqs2, reqs3, reqs4, pcts1, pcts2, pcts3, pcts4,
          logs1, logs2, logs3, logs4, stepChecks, List.range_succ, successLog, hb1, hb2,
          hb3, hb4]

/-- Witness for C2 at a concrete input: the second request suffers a transport
error after a successful first step. -/
theorem c2_failure_halts_pipeline_witness :
    (requests (clickRun "life" "3"
        ⟨.loaded 200 (.list []), .transport, .transport, .transport⟩).trace).length = 2 ∧
    progressPcts (clickRun "life" "3"
        ⟨.loaded 200 (.list []), .transport, .transport, .transport⟩).trace =
      0 :: (stepChecks.take (2 - 1) ++ [0]) ∧
    logMsgs (clickRun "life" "3"
        ⟨.loaded 200 (.list []), .transport, .transport, .transport⟩).trace =
      (List.range (2 - 1)).map (fun j => successLog "life" (j + 1)) ∧
    (clickRun "life" "3"
        ⟨.loaded 200 (.list []), .transport, .transport,
          .transport⟩).progressText = "Error occurred during data fetching" :=
  c2_failure_halts_pipeline "life" "3"
    ⟨.loaded 200 (.list []), .transport, .transport, .transport⟩ 2
    ⟨by decide, by decide, by decide⟩

/-- C3: every failure, of either kind, at any of the four steps invokes the
single error path `handleError` with that step's failure message; the error
path logs the message on the console error channel, resets the progress bar to
0 with the fixed error status text, re-enables the trigger button, and
overwrites exactly those regions whose content still contains the loading
indicator substring, leaving the others untouched.  The two failure kinds
differ only in the message `failMsg` passes through the identical path. -/
theorem c3_single_error_path :
    (∀ (topic count : String) (env : Responses) (K : Nat), failsAt env K →
      ∃ mid, clickRun topic count env = handleError (failMsg K env) mid) ∧
    (∀ (msg : String) (st : State),
      Event.conError msg ∈ (handleError msg st).trace ∧
      (handleError msg st).progressPercent = 0 ∧
      (handleError msg st).progressText = "Error occurred during data fetching" ∧
      (handleError msg st).buttonDisabled = false ∧
      (handleError msg st).buttonText = "Fetch All Data" ∧
      ∀ r : Region, (handleError msg st).region r =
        if containsSub (st.region r) "spinner" = true then errorDiv msg
        else st.region r) :=
  ⟨clickRun_fail, fun msg st =>
    ⟨conError_mem_handleError msg st, progressPercent_handleError msg st,
     progressText_handleError msg st, buttonDisabled_handleError msg st,
     buttonText_handleError msg st, fun r => region_handleError msg st r⟩⟩

/-- Witness for C3 at a concrete input: a transport failure on the second
request goes through `handleError` with the step-2 network error message. -/
theorem c3_single_error_path_witness :
    ∃ mid, clickRun "life" "3"
        ⟨.loaded 200 (.list []), .transport, .transport, .transport⟩ =
      handleError
        (failMsg 2 ⟨.loaded 200 (.list []), .transport, .transport, .transport⟩) mid :=
  c3_single_error_path.1 "life" "3"
    ⟨.loaded 200 (.list []), .transport, .transport, .transport⟩ 2
    ⟨by decide, by decide, by decide⟩

/-- C5: the trigger button is disabled when a run starts, the run toggles the
button exactly twice — disable at the start, enable at the end — so it stays
disabled while the run is in flight, and it is enabled in both terminal
states (the success path after the completion step and the error path). -/
theorem c5_button_disabled_during_run (topic count : String) (env : Responses) :
    (resetDashboard pageLoad).buttonDisabled = true ∧
    buttonEvts (clickRun topic count env).trace = [false, true] ∧
    (clickRun topic count env).buttonDisabled = false :=
  ⟨rfl, buttonEvts_clickRun topic count env, buttonDisabled_clickRun topic count env⟩

/-- C6: every progress value a run ever sets is one of 0, 20, 40, 60, 80, 100
(hence an integer in [0,100]), and consecutive progress values are strictly
increasing except for a reset to 0 (on error; the leading 0 is the restart
reset of the new run). -/
theorem c6_progress_values_monotone (topic count : String) (env : Responses) :
    (∀ p ∈ progressPcts (clickRun topic count env).trace,
      p ∈ ([0, 20, 40, 60, 80, 100] : List Nat) ∧ p ≤ 100) ∧
    List.Chain' (fun a b => a < b ∨ b = 0)
      (progressPcts (clickRun topic count env).trace) := by
  rw [progressPcts_clickRun]
  obtain ⟨r1, r2, r3, r4⟩ := env
  cases hb1 : r1.ok <;> cases hb2 : r2.ok <;> cases hb3 : r3.ok <;> cases hb4 : r4.ok <;>
    simp [pcts1, pcts2, pcts3, pcts4, hb1, hb2, hb3, hb4]

set_option maxRecDepth 1000000 in
/-- Witness for C6 at a concrete input: the value 20 set by the successful
first step on a run that fails at step 2 is a legal checkpoint. -/
theorem c6_progress_values_monotone_witness :
    (20 : Nat) ∈ ([0, 20, 40, 60, 80, 100] : List Nat) ∧ (20 : Nat) ≤ 100 :=
  (c6_progress_values_monotone "life" "3"
    ⟨.loaded 200 (.list []), .transport, .transport, .transport⟩).1 20 (by decide)

/-- C7: every request a run issues is a GET to one and the same URL, built
from the single fixed quotes endpoint with the query parameters topic and
count of the run's input; later steps reuse exactly the first step's endpoint
and parameters. -/
theorem c7_requests_same_get_url (topic count : String) (env : Responses) :
    requests (clickRun topic count env).trace =
      List.replicate (requests (clickRun topic count env).trace).length
        ("GET", mkUrl topic count) ∧
    mkUrl topic count = endpoint ++ "?" ++ ("topic=" ++ topic ++ "&count=" ++ count) := by
  refine ⟨?_, rfl⟩
  rw [requests_clickRun, List.length_replicate]

set_option maxRecDepth 1000000 in
/-- C4 counterexample: the claim fails as stated.  With a failure at step 2
after a successful step 1 whose rendered quote text contains the substring
spinner, the completed quotes region does not retain its rendered content:
`handleError` overwrites it with the inline error message, because the
overwrite test only checks for the substring spinner in the region's current
markup. -/
theorem c4_counterexample_completed_region_overwritten :
    failsAt (⟨.loaded 200 (.list [⟨"the spinner trick", "anon"⟩]), .transport,
      .transport, .transport⟩ : Responses) 2 ∧
    ¬ ((clickRun "life" "1"
          ⟨.loaded 200 (.list [⟨"the spinner trick", "anon"⟩]), .transport,
            .transport, .transport⟩).region (regOf 1) =
        renderOf ⟨.loaded 200 (.list [⟨"the spinner trick", "anon"⟩]), .transport,
          .transport, .transport⟩ "1" 1) ∧
    (clickRun "life" "1"
        ⟨.loaded 200 (.list [⟨"the spinner trick", "anon"⟩]), .transport,
          .transport, .transport⟩).region (regOf 1) =
      errorDiv "Network error while fetching author details." :=
  ⟨⟨by decide, by decide, by decide⟩, by decide, by decide⟩

/-- C4 (amended): for every K in 1..4 and every failure at step K, the display
regions of already-completed steps 1..K-1 retain their previously rendered
content, provided that rendered content does not contain the substring
spinner (the counterexample shows the proviso is necessary), while the
regions of steps K..4 show the inline error markup containing the failure
message. -/
theorem c4_amended_regions_after_failure (topic count : String) (env : Responses)
    (K : Nat) (h : failsAt env K) :
    (∀ j, 1 ≤ j → j < K → containsSub (renderOf env count j) "spinner" = false →
      (clickRun topic count env).region (regOf j) = renderOf env count j) ∧
    (∀ j, K ≤ j → j ≤ 4 →
      (clickRun topic count env).region (regOf j) = errorDiv (failMsg K env)) := by
  obtain ⟨hK1, hK4, hsc⟩ := h
  interval_cases K
  · simp only [succCount] at hsc
    split_ifs at hsc with hb1 hb2 hb3 hb4
    all_goals first
      | omega
      | (rw [show clickRun topic count env = handleError (failMsg 1 env)
              (emit (resetDashboard pageLoad) (.request "GET" (mkUrl topic count))) from
            fetchQuotes_err topic count env (resetDashboard pageLoad)
              (by simpa using hb1)]
         constructor
         · intro j hj1 hj2 hcs
           omega
         · intro j hj1 hj2
           interval_cases j <;>
             simp [regOf, region_handleError, region_emit, region_resetDashboard,
               containsSub_spinnerMarkup])
  · simp only [succCount] at hsc
    split_ifs at hsc with hb1 hb2 hb3 hb4
    all_goals first
      | omega
      | (obtain ⟨p1, hp1⟩ := (Response.ok_iff env.r1).mp hb1
         rw [show clickRun topic count env = _ from
           (fetchQuotes_ok topic count env (resetDashboard pageLoad) p1 hp1).trans
             (step2_err _ _ _ _ (by simpa using hb2))]
         constructor
         · intro j hj1 hj2 hcs
           interval_cases j
           simp only [renderOf, Response.payload, hp1] at hcs
           simp [regOf, region_handleError, region_emit, displayQuotes,
             region_setRegion, region_updateProgress, region_conLog,
             region_resetDashboard, renderOf, Response.payload, hp1, hcs]
         · intro j hj1 hj2
           interval_cases j <;>
             simp [regOf, region_handleError, region_emit, displayQuotes,
               region_setRegion, region_updateProgress, region_conLog,
               region_resetDashboard, containsSub_spinnerMarkup])
  · simp only [succCount] at hsc
    split_ifs at hsc with hb1 hb2 hb3 hb4
    all_goals first
      | omega
      | (obtain ⟨p1, hp1⟩ := (Response.ok_iff env.r1).mp hb1
         obtain ⟨p2, hp2⟩ := (Response.ok_iff env.r2).mp hb2
         rw [show clickRun topic count env = _ from
           ((fetchQuotes_ok topic count env (resetDashboard pageLoad) p1 hp1).trans
             (step2_ok _ _ _ _ p2 hp2)).trans
             (step3_err _ _ _ _ (by simpa using hb3))]
         constructor
         · intro j hj1 hj2 hcs
           interval_cases j
           · simp only [renderOf, Response.payload, hp1] at hcs
             simp [regOf, region_handleError, region_emit, displayQuotes,
               displayAuthorInfo, region_setRegion, region_updateProgress,
               region_conLog, region_resetDashboard, renderOf, Response.payload,
               hp1, hcs]
           · simp only [renderOf, Response.payload, hp2] at hcs
             simp [regOf, region_handleError, region_emit, displayQuotes,
               displayAuthorInfo, region_setRegion, region_updateProgress,
               region_conLog, region_resetDashboard, renderOf, Response.payload,
               hp2, hcs]
         · intro j hj1 hj2
           interval_cases j <;>
             simp [regOf, region_handleError, region_emit, displayQuotes,
               displayAuthorInfo, region_setRegion, region_updateProgress,
               region_conLog, region_resetDashboard, containsSub_spinnerMarkup])
  · simp only [succCount] at hsc
    split_ifs at hsc with hb1 hb2 hb3 hb4
    all_goals first
      | omega
      | (obtain ⟨p1, hp1⟩ := (Response.ok_iff env.r1).mp hb1
         obtain ⟨p2, hp2⟩ := (Response.ok_iff env.r2).mp hb2
         obtain ⟨p3, hp3⟩ := (Response.ok_iff env.r3).mp hb3
         rw [show clickRun topic count env = _ from
           (((fetchQuotes_ok topic count env (resetDashboard pageLoad) p1 hp1).trans
             (step2_ok _ _ _ _ p2 hp2)).trans
             (step3_ok _ _ _ _ p3 hp3)).trans
             (step4_err _ _ _ _ (by simpa using hb4))]
         constructor
         · intro j hj1 hj2 hcs
           interval_cases j
           · simp only [renderOf, Response.payload, hp1] at hcs
             simp [regOf, region_handleError, region_emit, displayQuotes,
               displayAuthorInfo, displayRelatedQuotes, region_setRegion,
               region_updateProgress, region_conLog, region_resetDashboard,
               renderOf, Response.payload, hp1, hcs]
           · simp only [renderOf, Response.payload, hp2] at hcs
             simp [regOf, region_handleError, region_emit, displayQuotes,
               displayAuthorInfo, displayRelatedQuotes, region_setRegion,
               region_updateProgress, region_conLog, region_resetDashboard,
               renderOf, Response.payload, hp2, hcs]
           · simp only [renderOf, Response.payload, hp3] at hcs
             simp [regOf, region_handleError, region_emit, displayQuotes,
               displayAuthorInfo, displayRelatedQuotes, region_setRegion,
               region_updateProgress, region_conLog, region_resetDashboard,
               renderOf, Response.payload, hp3, hcs]
         · intro j hj1 hj2
           interval_cases j
           simp [regOf, region_handleError, region_emit, displayQuotes,
             displayAuthorInfo, displayRelatedQuotes, region_setRegion,
             region_updateProgress, region_conLog, region_resetDashboard,
             containsSub_spinnerMarkup])

set_option maxRecDepth 1000000 in
/-- Witness for the amended C4 at a concrete input: after a transport failure
at step 2, the quotes region still shows the step-1 rendering of a quote that
does not contain the substring spinner. -/
theorem c4_amended_regions_after_failure_witness :
    (clickRun "life" "3"
        ⟨.loaded 200 (.list [⟨"carpe diem", "horace"⟩]), .transport, .transport,
          .transport⟩).region (regOf 1) =
      renderOf ⟨.loaded 200 (.list [⟨"carpe diem", "horace"⟩]), .transport,
        .transport, .transport⟩ "3" 1 :=
  (c4_amended_regions_after_failure "life" "3"
      ⟨.loaded 200 (.list [⟨"carpe diem", "horace"⟩]), .transport, .transport,
        .transport⟩ 2
      ⟨by decide, by decide, by decide⟩).1 1 (by decide) (by decide) (by decide)

set_option maxRecDepth 1000000 in
/-- C9: on the error path a display region is overwritten with the inline
error message exactly when its current markup contains the substring spinner
(first conjunct, over every state: a region without that substring is left
untouched, whatever it shows); consequently a completed region whose rendered
quote text happens to contain spinner is also overwritten (second conjunct,
at a concrete run failing at step 2). -/
theorem c9_overwrite_iff_spinner_substring :
    (∀ (msg : String) (st : State) (r : Region),
      (handleError msg st).region r =
        if containsSub (st.region r) "spinner" = true then errorDiv msg
        else st.region r) ∧
    (clickRun "wisdom" "1"
        ⟨.loaded 200 (.list [⟨"loading spinner", "ui"⟩]), .transport, .transport,
          .transport⟩).region .quotes =
      errorDiv "Network error while fetching author details." :=
  ⟨fun msg st r => region_handleError msg st r, by decide⟩

/-- C8: a response with HTTP status 200 whose parsed payload is an error
object is not treated as a failure, at any of the four steps: the step's
region renders the payload's error text inline, the step's progress
checkpoint is still set, and the pipeline still continues — the next request
is issued (after step 4, the final completion step runs to percent 100). -/
theorem c8_error_object_payload_is_success (topic count m : String) :
    (∀ r2 r3 r4 : Response,
      Event.render .quotes (quotesHtml (.err m) count) ∈
        (clickRun topic count ⟨.loaded 200 (.err m), r2, r3, r4⟩).trace ∧
      quotesHtml (.err m) count =
        "<h3>Requested " ++ count ++ " quotes:</h3>" ++ errorDiv m ∧
      Event.progress 20 "Step 1/5: Quotes loaded!" ∈
        (clickRun topic count ⟨.loaded 200 (.err m), r2, r3, r4⟩).trace ∧
      2 ≤ (requests (clickRun topic count
        ⟨.loaded 200 (.err m), r2, r3, r4⟩).trace).length) ∧
    (∀ (p1 : Payload) (r3 r4 : Response),
      Event.render .authorInfo (authorInfoHtml (.err m)) ∈
        (clickRun topic count ⟨.loaded 200 p1, .loaded 200 (.err m), r3, r4⟩).trace ∧
      authorInfoHtml (.err m) =
        "<div class=\"author-card\">" ++ errorDiv m ++ "</div>" ∧
      Event.progress 40 "Step 2/5: Author info loaded!" ∈
        (clickRun topic count ⟨.loaded 200 p1, .loaded 200 (.err m), r3, r4⟩).trace ∧
      3 ≤ (requests (clickRun topic count
        ⟨.loaded 200 p1, .loaded 200 (.err m), r3, r4⟩).trace).length) ∧
    (∀ (p1 p2 : Payload) (r4 : Response),
      Event.render .relatedQuotes (relatedHtml (.err m)) ∈
        (clickRun topic count
          ⟨.loaded 200 p1, .loaded 200 p2, .loaded 200 (.err m), r4⟩).trace ∧
      relatedHtml (.err m) = "<h3>Related content:</h3>" ++ errorDiv m ∧
      Event.progress 60 "Step 3/5: Related quotes loaded!" ∈
        (clickRun topic count
          ⟨.loaded 200 p1, .loaded 200 p2, .loaded 200 (.err m), r4⟩).trace ∧
      4 ≤ (requests (clickRun topic count
        ⟨.loaded 200 p1, .loaded 200 p2, .loaded 200 (.err m), r4⟩).trace).length) ∧
    (∀ p1 p2 p3 : Payload,
      Event.render .randomQuote (randomQuoteHtml (.err m)) ∈
        (clickRun topic count
          ⟨.loaded 200 p1, .loaded 200 p2, .loaded 200 p3, .loaded 200 (.err m)⟩).trace ∧
      randomQuoteHtml (.err m) = "<h3>Quote of the day:</h3>" ++ errorDiv m ∧
      Event.progress 80 "Step 4/5: Random quote loaded!" ∈
        (clickRun topic count
          ⟨.loaded 200 p1, .loaded 200 p2, .loaded 200 p3, .loaded 200 (.err m)⟩).trace ∧
      Event.conLog "Step 5: All data processing complete!" ∈
        (clickRun topic count
          ⟨.loaded 200 p1, .loaded 200 p2, .loaded 200 p3, .loaded 200 (.err m)⟩).trace ∧
      Event.progress 100 "Complete! All data loaded successfully." ∈
        (clickRun topic count
          ⟨.loaded 200 p1, .loaded 200 p2, .loaded 200 p3,
            .loaded 200 (.err m)⟩).trace) := by
  refine ⟨fun r2 r3 r4 => ?_, fun p1 r3 r4 => ?_, fun p1 p2 r4 => ?_,
    fun p1 p2 p3 => ?_⟩
  · have hpath := fetchQuotes_ok topic count ⟨.loaded 200 (.err m), r2, r3, r4⟩
      (resetDashboard pageLoad) (.err m) rfl
    refine ⟨?_, rfl, ?_, ?_⟩
    · rw [show clickRun topic count ⟨.loaded 200 (.err m), r2, r3, r4⟩ = _ from hpath]
      refine (trace_sublist_step2 _ _ _ _).subset ?_
      simp [displayQuotes, setRegion, conLog, updateProgress, emit, resetDashboard,
        showSpinner, pageLoad]
    · rw [show clickRun topic count ⟨.loaded 200 (.err m), r2, r3, r4⟩ = _ from hpath]
      refine (trace_sublist_step2 _ _ _ _).subset ?_
      simp [displayQuotes, setRegion, conLog, updateProgress, emit, resetDashboard,
        showSpinner, pageLoad]
    · rw [requests_clickRun, List.length_replicate]
      simp [reqs1, reqs2, Response.ok]
      try omega
  · have hpath := (fetchQuotes_ok topic count
        ⟨.loaded 200 p1, .loaded 200 (.err m), r3, r4⟩
        (resetDashboard pageLoad) p1 rfl).trans
      (step2_ok _ _ _ _ (.err m) rfl)
    refine ⟨?_, rfl, ?_, ?_⟩
    · rw [show clickRun topic count ⟨.loaded 200 p1, .loaded 200 (.err m), r3, r4⟩ =
          _ from hpath]
      refine (trace_sublist_step3 _ _ _ _).subset ?_
      simp [displayQuotes, displayAuthorInfo, setRegion, conLog, updateProgress, emit,
        resetDashboard, showSpinner, pageLoad]
    · rw [show clickRun topic count ⟨.loaded 200 p1, .loaded 200 (.err m), r3, r4⟩ =
          _ from hpath]
      refine (trace_sublist_step3 _ _ _ _).subset ?_
      simp [displayQuotes, displayAuthorInfo, setRegion, conLog, updateProgress, emit,
        resetDashboard, showSpinner, pageLoad]
    · rw [requests_clickRun, List.length_replicate]
      simp [reqs1, reqs2, reqs3, Response.ok]
      try omega
  · have hpath := ((fetchQuotes_ok topic count
        ⟨.loaded 200 p1, .loaded 200 p2, .loaded 200 (.err m), r4⟩
        (resetDashboard pageLoad) p1 rfl).trans
      (step2_ok _ _ _ _ p2 rfl)).trans
      (step3_ok _ _ _ _ (.err m) rfl)
    refine ⟨?_, rfl, ?_, ?_⟩
    · rw [show clickRun topic count
          ⟨.loaded 200 p1, .loaded 200 p2, .loaded 200 (.err m), r4⟩ = _ from hpath]
      refine (trace_sublist_step4 _ _ _ _).subset ?_
      simp [displayQuotes, displayAuthorInfo, displayRelatedQuotes, setRegion, conLog,
        updateProgress, emit, resetDashboard, showSpinner, pageLoad]
    · rw [show clickRun topic count
          ⟨.loaded 200 p1, .loaded 200 p2, .loaded 200 (.err m), r4⟩ = _ from hpath]
      refine (trace_sublist_step4 _ _ _ _).subset ?_
      simp [displayQuotes, displayAuthorInfo, displayRelatedQuotes, setRegion, conLog,
        updateProgress, emit, resetDashboard, showSpinner, pageLoad]
    · rw [requests_clickRun, List.length_replicate]
      simp [reqs1, reqs2, reqs3, reqs4, Response.ok]
      try omega
  · have hpath := (((fetchQuotes_ok topic count
        ⟨.loaded 200 p1, .loaded 200 p2, .loaded 200 p3, .loaded 200 (.err m)⟩
        (resetDashboard pageLoad) p1 rfl).trans
      (step2_ok _ _ _ _ p2 rfl)).trans
      (step3_ok _ _ _ _ p3 rfl)).trans
      (step4_ok _ _ _ _ (.err m) rfl)
    rw [show clickRun topic count
        ⟨.loaded 200 p1, .loaded 200 p2, .loaded 200 p3, .loaded 200 (.err m)⟩ =
        _ from hpath]
    refine ⟨?_, rfl, ?_, ?_, ?_⟩ <;>
      simp [step5, displayQuotes, displayAuthorInfo, displayRelatedQuotes,
        displayRandomQuote, setRegion, conLog, updateProgress, enableButton, emit,
        resetDashboard, showSpinner, pageLoad]

/-- C10: for every non-error list payload delivered to the RelatedQuotes step,
the RelatedQuotes region renders exactly the first min(length, 2) quote items
of the list, in list order, and never more than two. -/
theorem c10_related_renders_first_two (topic count : String) (p1 p2 p4 : Payload)
    (items : List QuoteItem) :
    (clickRun topic count
        ⟨.loaded 200 p1, .loaded 200 p2, .loaded 200 (.list items),
          .loaded 200 p4⟩).relatedQuotes =
      "<h3>Related content:</h3>" ++ String.join ((items.take 2).map quoteItemHtml) ++
        "<p style=\"color: #666; font-style: italic;\">Related quotes would come from a different API endpoint based on the original quotes.</p>" ∧
    (items.take 2).length = min items.length 2 ∧
    ∀ i : Fin (items.take 2).length,
      ∃ hlt : i.val < items.length, (items.take 2).get i = items.get ⟨i.val, hlt⟩ := by
  refine ⟨?_, ?_, ?_⟩
  · rw [show clickRun topic count
        ⟨.loaded 200 p1, .loaded 200 p2, .loaded 200 (.list items), .loaded 200 p4⟩ =
        _ from (((fetchQuotes_ok topic count _ (resetDashboard pageLoad) p1 rfl).trans
          (step2_ok _ _ _ _ p2 rfl)).trans
          (step3_ok _ _ _ _ (.list items) rfl)).trans
          (step4_ok _ _ _ _ p4 rfl)]
    simp [step5, enableButton, updateProgress, conLog, emit, displayRandomQuote,
      displayRelatedQuotes, displayAuthorInfo, displayQuotes, setRegion, relatedHtml]
  · simp [List.length_take, Nat.min_comm]
  · intro i
    have hlt : i.val < items.length := by
      have h2 := i.isLt
      simp [List.length_take] at h2
      omega
    exact ⟨hlt, by simp [List.get_eq_getElem, List.getElem_take]⟩

end Claims

end CallbackHell
